import Mathlib

/-!
Verification development for the BayBE core campaign logic
(`baybe/core.py`) and the custom-surrogate machinery
(`baybe/surrogates/custom.py`).

Dataframes are modelled column-major: a row count together with an
association list from column names to cell lists.  A cell is either a
missing value (NaN/None), a number, or a non-numeric object (string).
A column whose cells are all numeric or missing corresponds to a pandas
column of dtype kind in "iufb"; a column holding any object cell has
dtype kind "O".
-/

namespace BayBESpec

/-- One entry of a dataframe: missing (NaN), numeric, or a non-numeric
object such as a string. -/
inductive Cell where
  | na : Cell
  | num : Int → Cell
  | str : String → Cell
deriving DecidableEq, Repr

/-- A pandas dataframe, column-major: the number of rows and an
association list from column names to columns. -/
structure DataFrame where
  nrows : Nat
  cols : List (String × List Cell)
deriving DecidableEq, Repr

/-- Look a name up in a column association list. -/
def getAssoc : List (String × List Cell) → String → Option (List Cell)
  | [], _ => none
  | (n, col) :: rest, m => if n = m then some col else getAssoc rest m

/-- Overwrite the column of the given name in place (pandas `df[m] = v`
keeps the column position), appending a new column when absent. -/
def setAssoc : List (String × List Cell) → String → List Cell → List (String × List Cell)
  | [], m, v => [(m, v)]
  | (n, col) :: rest, m, v =>
    if n = m then (n, v) :: rest else (n, col) :: setAssoc rest m v

/-- Apply a function to the column of the given name, leaving the list
unchanged when the column is absent. -/
def mapAssoc (f : List Cell → List Cell) : List (String × List Cell) → String → List (String × List Cell)
  | [], _ => []
  | (n, col) :: rest, m =>
    if n = m then (n, f col) :: rest else (n, col) :: mapAssoc f rest m

/-- The column of the given name (`df[m]`), empty when absent. -/
def DataFrame.getCol (df : DataFrame) (m : String) : List Cell :=
  (getAssoc df.cols m).getD []

/-- Whether the dataframe has a column of the given name. -/
def DataFrame.hasCol (df : DataFrame) (m : String) : Bool :=
  (getAssoc df.cols m).isSome

/-- `df[m] = scalar`: fill (or create) the column with a constant value. -/
def DataFrame.setColConst (df : DataFrame) (m : String) (v : Cell) : DataFrame :=
  { df with cols := setAssoc df.cols m (List.replicate df.nrows v) }

/-- `df[m].fillna(v, inplace=True)`: replace missing cells of the column
by `v`.  (On a dataframe lacking the column pandas raises a key error;
the campaign only calls this on logs that carry the column, and the
model makes it a no-op there.) -/
def DataFrame.fillnaCol (df : DataFrame) (m : String) (v : Cell) : DataFrame :=
  { df with cols := mapAssoc (List.map (fun x => if x = Cell.na then v else x)) df.cols m }

/-- The ordered list of column names. -/
def DataFrame.colNames (df : DataFrame) : List String := df.cols.map Prod.fst

/-- `pd.DataFrame()`. -/
def DataFrame.empty : DataFrame := { nrows := 0, cols := [] }

/-- The column of the given name, padded with missing values when the
frame lacks it (pandas `concat` alignment). -/
def padCol (df : DataFrame) (m : String) : List Cell :=
  (getAssoc df.cols m).getD (List.replicate df.nrows Cell.na)

/-- `pd.concat([a, b], axis=0, ignore_index=True)`: rows of `a` followed
by rows of `b`, columns aligned by name with missing-value padding. -/
def DataFrame.concat (a b : DataFrame) : DataFrame :=
  { nrows := a.nrows + b.nrows
    cols :=
      (a.colNames ++ b.colNames.filter (fun n => ! a.colNames.contains n)).map
        (fun n => (n, padCol a n ++ padCol b n)) }

/-- `cell.isna()`. -/
def isNA : Cell → Bool
  | Cell.na => true
  | _ => false

/-- Whether a cell is admissible in a column of numeric dtype kind
(`iufb`): numbers and missing values are, objects are not. -/
def numericCell : Cell → Bool
  | Cell.str _ => false
  | _ => true

/-- `df[m].isna().any()`. -/
def hasNA (col : List Cell) : Bool := col.any isNA

/-- `df[m].dtype.kind in "iufb"`: the column dtype is numeric/boolean
exactly when no cell is a non-numeric object. -/
def numericKind (col : List Cell) : Bool := col.all numericCell

/-- The exceptions raised by the campaign core. -/
inductive BError where
  | valueError (msg : String)
  | typeError (msg : String)
deriving DecidableEq, Repr

/-- Message of the missing-target-value error in `add_results`. -/
def target_na_msg (t : String) : String :=
  "The target \x27" ++ t ++ "\x27 has missing values or NaNs in the provided dataframe. Missing target values are not supported."

/-- Message of the non-numeric-target error in `add_results`. -/
def target_type_msg (t : String) : String :=
  "The target \x27" ++ t ++ "\x27 has non-numeric entries in the provided dataframe. Non-numeric target values are not supported."

/-- Message of the missing-parameter-value error in `add_results`. -/
def param_na_msg (p : String) : String :=
  "The parameter \x27" ++ p ++ "\x27 has missing values or NaNs in the provided dataframe. Missing parameter values are not supported."

/-- Message of the non-numeric-parameter error in `add_results`. -/
def param_type_msg (p : String) : String :=
  "The numerical parameter \x27" ++ p ++ "\x27 has non-numeric entries in the provided dataframe."

/-- Message of the non-positive batch-quantity error in `recommend`. -/
def batch_quantity_msg (bq : Int) : String :=
  "You must at least request one recommendation per batch, but provided batch_quantity=" ++ toString bq ++ "."

/-- The collaborators of the campaign, consumed through their external
interfaces: target names of the objective, parameter descriptors
(name, is_numeric) of the search space, the two transform functions,
and the recommend entry point of the strategy. -/
structure Env where
  targets : List String
  parameters : List (String × Bool)
  searchspaceTransform : DataFrame → DataFrame
  objectiveTransform : DataFrame → DataFrame
  strategyRecommend : DataFrame → DataFrame → Int → DataFrame
  numerical_measurements_must_be_within_tolerance : Bool

/-- The mutable state of a `BayBE` campaign object: the measurement log,
the batch and fit counters, the recommendation cache, and the record of
`mark_as_measured` calls made on the search space. -/
structure Campaign where
  measurements_exp : DataFrame
  batches_done : Nat
  fits_done : Nat
  cached_recommendation : DataFrame
  measured_marks : List (DataFrame × Bool)
deriving DecidableEq, Repr

/-- The freshly constructed campaign (pydantic defaults: empty log,
zero counters, empty cache). -/
def Campaign.initial : Campaign :=
  { measurements_exp := DataFrame.empty
    batches_done := 0
    fits_done := 0
    cached_recommendation := DataFrame.empty
    measured_marks := [] }

/-- The target-validation loop of `add_results`: for each target in
declared order, first the missing-value check, then the dtype check. -/
def targets_check (data : DataFrame) : List String → Option BError
  | [] => none
  | t :: rest =>
    if hasNA (data.getCol t) then some (BError.valueError (target_na_msg t))
    else if ! numericKind (data.getCol t) then some (BError.typeError (target_type_msg t))
    else targets_check data rest

/-- The parameter-validation loop of `add_results`: missing-value check,
then (for numeric parameters only) the dtype check. -/
def params_check (data : DataFrame) : List (String × Bool) → Option BError
  | [] => none
  | (p, isNum) :: rest =>
    if hasNA (data.getCol p) then some (BError.valueError (param_na_msg p))
    else if isNum && ! numericKind (data.getCol p) then some (BError.typeError (param_type_msg p))
    else params_check data rest

/-- `BayBE.add_results`: invalidate the cache first, validate targets
then parameters (raising on the first violation), mark the data as
measured, increment the batch counter, tag the rows with the batch
number and an unassigned fit number, and append them to the log.
Returns the campaign as left by the call together with the raised
error, if any. -/
def add_results (env : Env) (c : Campaign) (data : DataFrame) : Campaign × Option BError :=
  let c0 := { c with cached_recommendation := DataFrame.empty }
  match targets_check data env.targets with
  | some e => (c0, some e)
  | none =>
    match params_check data env.parameters with
    | some e => (c0, some e)
    | none =>
      let c1 := { c0 with
        measured_marks :=
          c0.measured_marks ++ [(data, env.numerical_measurements_must_be_within_tolerance)] }
      let nb := c1.batches_done + 1
      let to_insert := (data.setColConst "BatchNr" (Cell.num (Int.ofNat nb))).setColConst "FitNr" Cell.na
      ({ c1 with
          batches_done := nb
          measurements_exp := c1.measurements_exp.concat to_insert }, none)

/-- `BayBE.measurements_parameters_comp`: empty when the log is empty,
else the search-space transform of the log. -/
def measurements_parameters_comp (env : Env) (c : Campaign) : DataFrame :=
  if c.measurements_exp.nrows < 1 then DataFrame.empty
  else env.searchspaceTransform c.measurements_exp

/-- `BayBE.measurements_targets_comp`: empty when the log is empty,
else the objective transform of the log. -/
def measurements_targets_comp (env : Env) (c : Campaign) : DataFrame :=
  if c.measurements_exp.nrows < 1 then DataFrame.empty
  else env.objectiveTransform c.measurements_exp

/-- The placeholder written into target columns of a recommendation. -/
def placeholder : Cell := Cell.str "<Enter value>"

/-- The fit-counter update of `recommend`: when measurements exist,
increment the fit counter and backfill every still-unassigned fit
number with its new value. -/
def fit_update (c : Campaign) : Campaign :=
  if 0 < c.measurements_exp.nrows then
    { c with
        fits_done := c.fits_done + 1
        measurements_exp :=
          c.measurements_exp.fillnaCol "FitNr" (Cell.num (Int.ofNat (c.fits_done + 1))) }
  else c

/-- The cache-miss path of `BayBE.recommend` (source lines 158-177):
apply the fit-counter update; call the strategy on the computational
representations; fill every target column with the placeholder; cache
and return the result. -/
def recommend_compute (env : Env) (c : Campaign) (bq : Int) : Campaign × DataFrame :=
  let c1 := fit_update c
  let rcmd1 :=
    env.targets.foldl (fun r t => r.setColConst t placeholder)
      (env.strategyRecommend (measurements_parameters_comp env c1)
        (measurements_targets_comp env c1) bq)
  ({ c1 with cached_recommendation := rcmd1 }, rcmd1)

/-- `BayBE.recommend`: reject non-positive batch quantities; serve the
cache when its row count equals the requested quantity; otherwise take
the recompute path. -/
def recommend (env : Env) (c : Campaign) (bq : Int) : Campaign × Except BError DataFrame :=
  if bq < 1 then
    (c, Except.error (BError.valueError (batch_quantity_msg bq)))
  else if (c.cached_recommendation.nrows : Int) = bq then
    (c, Except.ok c.cached_recommendation)
  else
    let p := recommend_compute env c bq
    (p.1, Except.ok p.2)

/-- The campaign states reachable from a fresh campaign through
`add_results` and `recommend` calls. -/
inductive Reachable (env : Env) : Campaign → Prop where
  | start : Reachable env Campaign.initial
  | step_add (c : Campaign) (data : DataFrame) :
      Reachable env c → Reachable env (add_results env c data).1
  | step_rec (c : Campaign) (bq : Int) :
      Reachable env c → Reachable env (recommend env c bq).1

/-- Every declared target column of the table is uniformly filled with
the unfilled-value placeholder. -/
def placeholderFilled (targets : List String) (df : DataFrame) : Prop :=
  ∀ t, t ∈ targets → df.getCol t = List.replicate df.nrows placeholder

/-- The cache invariant: the cached recommendation is either empty or a
table whose target columns are uniformly placeholder-filled. -/
def CacheOK (targets : List String) (c : Campaign) : Prop :=
  c.cached_recommendation.nrows = 0 ∨ placeholderFilled targets c.cached_recommendation

/-- A single target column of the input fails the `add_results` checks
(missing value, or non-numeric dtype). -/
def target_clean (data : DataFrame) (t : String) : Bool :=
  ! hasNA (data.getCol t) && numericKind (data.getCol t)

/-! ## Custom architecture registration (`baybe/surrogates/custom.py`) -/

/-- Modelled from the spec: the fit method of the base `Surrogate`
abstraction takes `(self, searchspace, train_x, train_y)`; the base class is
not under the sources at hand, and its abstract method introduces no
local variables, so these are its full code co_varnames. -/
def surrogate_fit_varnames : List String := ["self", "searchspace", "train_x", "train_y"]

/-- Modelled from the spec: the posterior method of the base
`Surrogate` abstraction takes `(self, candidates)`. -/
def surrogate_posterior_varnames : List String := ["self", "candidates"]

/-- Introspected data of a candidate class attribute used by the
registrar: whether it is callable, and the variable names and
argument count of its code object. -/
structure MethodInfo where
  callable : Bool
  co_varnames : List String
  co_argcount : Nat
deriving DecidableEq, Repr

/-- A candidate model class as seen by the registrar: its `_fit` and
`_posterior` attributes, when present. -/
structure ModelCls where
  fit_attr : Option MethodInfo
  posterior_attr : Option MethodInfo
deriving DecidableEq, Repr

/-- Message when `_fit` or `_posterior` is missing. -/
def must_exist_msg : String :=
  "\x60_fit\x60 and a \x60_posterior\x60 must exist for custom architectures"

/-- Message when `_fit` or `_posterior` is not callable. -/
def must_be_methods_msg : String :=
  "\x60_fit\x60 and a \x60_posterior\x60 must be methods for custom architectures"

/-- Message when the `_fit` argument names differ from the contract. -/
def fit_args_msg : String :=
  "Invalid args in \x60_fit\x60 method definition for custom architecture. Please refer to Surrogate._fit for the required function signature."

/-- Message when the `_posterior` argument names differ from the contract. -/
def posterior_args_msg : String :=
  "Invalid args in \x60_posterior\x60 method definition for custom architecture. Please refer to Surrogate._posterior for the required function signature."

/-- `_validate_custom_arch_cls`: both methods must exist, be callable,
and have argument-name tuples (the first co_argcount co_varnames)
equal to the full co_varnames of the base contract.  Returns the message of the
raised `ValueError`, or `none` when validation passes. -/
def _validate_custom_arch_cls (m : ModelCls) : Option String :=
  match m.fit_attr, m.posterior_attr with
  | some fi, some po =>
    if ! (fi.callable && po.callable) then some must_be_methods_msg
    else if fi.co_varnames.take fi.co_argcount ≠ surrogate_fit_varnames then some fit_args_msg
    else if po.co_varnames.take po.co_argcount ≠ surrogate_posterior_varnames then some posterior_args_msg
    else none
  | _, _ => some must_exist_msg

/-- The adapter class produced by a successful registration, wrapping
the candidate class. -/
structure CustomArchitectureSurrogate where
  model : ModelCls
deriving DecidableEq, Repr

/-- `register_custom_architecture(...)(model_cls)`: validate the
candidate class at registration time, then produce the wrapping
adapter. -/
def register_custom_architecture (m : ModelCls) : Except String CustomArchitectureSurrogate :=
  match _validate_custom_arch_cls m with
  | some msg => Except.error msg
  | none => Except.ok { model := m }

/-! ### Attribute delegation of the produced adapter -/

/-- A value produced by an attribute lookup on an adapter instance:
either a member defined by the adapter (or its base class), or a value
taken from the wrapped model instance. -/
inductive PyVal where
  | adapterMember (name : String)
  | wrappedMember (name : String) (v : Int)
deriving DecidableEq, Repr

/-- Look a name up among the attributes of the wrapped model instance. -/
def lookupAttr : List (String × Int) → String → Option Int
  | [], _ => none
  | (n, v) :: rest, a => if n = a then some v else lookupAttr rest a

/-- The attribute names defined by `CustomArchitectureSurrogate` itself:
its class-dict entries (including the method named, in the source,
\x60__get_attribute__\x60) and the class variables. -/
def custom_architecture_attr_names : List String :=
  ["joint_posterior", "supports_transfer_learning", "__init__", "_fit", "_posterior",
   "__get_attribute__"]

/-- Modelled from the spec: the attributes the base `Surrogate`
abstraction contributes to the method-resolution order of the adapter
(its fit/posterior entry points and capability flags). -/
def surrogate_base_attr_names : List String :=
  ["fit", "posterior", "model_params", "joint_posterior", "supports_transfer_learning"]

/-- Default Python object attribute lookup on an adapter instance:
the instance dict (holding `model`), then the class dicts along the
method-resolution order. -/
def adapter_own_lookup (a : String) : Option PyVal :=
  if a = "model" ∨ a ∈ custom_architecture_attr_names ∨ a ∈ surrogate_base_attr_names
  then some (PyVal.adapterMember a) else none

/-- The body of the adapter method the source names
\x60__get_attribute__\x60: try the instance/class lookup and, when that
fails, fall back to the attribute of the wrapped model instance. -/
def get_attribute_body (wrapped : List (String × Int)) (a : String) : Option PyVal :=
  match adapter_own_lookup a with
  | some v => some v
  | none => (lookupAttr wrapped a).map (fun v => PyVal.wrappedMember a v)

/-- The name of the attribute-access special method of Python. -/
def getattribute_hook : String := "__getattribute__"

/-- The name of the fallback attribute hook of Python. -/
def getattr_hook : String := "__getattr__"

/-- Modelled from Python attribute semantics: `obj.a` invokes the
\x60__getattribute__\x60 override of the class when the class defines one;
otherwise the default lookup runs, with the \x60__getattr__\x60 hook of
the class as fallback on failure when defined; an empty result is an
`AttributeError`.  The adapter class defines neither hook (its method
is named \x60__get_attribute__\x60, a different name). -/
def adapter_attribute_access (wrapped : List (String × Int)) (a : String) : Option PyVal :=
  if getattribute_hook ∈ custom_architecture_attr_names then get_attribute_body wrapped a
  else
    match adapter_own_lookup a with
    | some v => some v
    | none =>
      if getattr_hook ∈ custom_architecture_attr_names then get_attribute_body wrapped a
      else none

/-! ### ONNX surrogate compatibility validation -/

/-- Modelled from the spec: the parameter kinds of the search space, as
far as the compatibility check distinguishes them (the parameter
classes themselves are external collaborators). -/
inductive Parameter where
  | numericalContinuous (name : String)
  | numericalDiscrete (name : String)
  | task (name : String)
  | customDiscrete (name : String) (decorrelate : Bool)
  | categorical (name : String) (encoding : String)
deriving DecidableEq, Repr

/-- The per-parameter condition of
`CustomONNXSurrogate.validate_compatibility`: numerical continuous,
numerical discrete, task, non-decorrelated custom discrete, or
integer-encoded categorical. -/
def onnx_compatible : Parameter → Bool
  | Parameter.numericalContinuous _ => true
  | Parameter.numericalDiscrete _ => true
  | Parameter.task _ => true
  | Parameter.customDiscrete _ d => ! d
  | Parameter.categorical _ e => e = "INT"

/-- The (constant) message of the `TypeError` raised by
`validate_compatibility`. -/
def onnx_incompat_msg : String :=
  "To prevent potential hard-to-detect bugs that stem from wrong wiring of model inputs, CustomONNXSurrogate is currently restricted for use with parameters that have a one-dimensional computational representation or CustomDiscreteParameter."

/-- `CustomONNXSurrogate.validate_compatibility`: passes exactly when
every parameter satisfies the condition; raises the constant
`TypeError` otherwise.  Returns the raised message, or `none`. -/
def validate_compatibility (ps : List Parameter) : Option String :=
  if ps.all onnx_compatible then none else some onnx_incompat_msg

/-- Whether `needle` starts the list `hay`. -/
def listStartsWith : List Char → List Char → Bool
  | _, [] => true
  | [], _ :: _ => false
  | a :: as, b :: bs => a = b && listStartsWith as bs

/-- Whether `needle` occurs as a contiguous sublist of `hay`. -/
def containsSub (needle : List Char) : List Char → Bool
  | [] => listStartsWith [] needle
  | h :: t => listStartsWith (h :: t) needle || containsSub needle t

/-! ## Concrete fixtures used by the witness theorems -/

/-- A concrete environment: one target, one numeric parameter, identity
transforms, and a strategy that always returns the same two-row table. -/
def envW : Env :=
  { targets := ["Yield"]
    parameters := [("Temp", true)]
    searchspaceTransform := fun df => df
    objectiveTransform := fun df => df
    strategyRecommend := fun _ _ _ =>
      { nrows := 2, cols := [("Temp", [Cell.num 1, Cell.num 2])] }
    numerical_measurements_must_be_within_tolerance := true }

/-- A valid measurement table for `envW`. -/
def dataGood : DataFrame :=
  { nrows := 2
    cols := [("Temp", [Cell.num 10, Cell.num 20]), ("Yield", [Cell.num 5, Cell.num 6])] }

/-- A measurement table whose target column holds a missing value. -/
def dataBadNA : DataFrame :=
  { nrows := 2
    cols := [("Temp", [Cell.num 10, Cell.num 20]), ("Yield", [Cell.num 5, Cell.na])] }

/-- A campaign with one two-row batch on record, one row of which still
lacks a fit number, and an empty recommendation cache. -/
def cW4 : Campaign :=
  { measurements_exp :=
      { nrows := 2
        cols := [("Temp", [Cell.num 1, Cell.num 2]),
                 ("BatchNr", [Cell.num 1, Cell.num 1]),
                 ("FitNr", [Cell.num 1, Cell.na])] }
    batches_done := 1
    fits_done := 1
    cached_recommendation := DataFrame.empty
    measured_marks := [] }

/-- The campaign left by a first `recommend(1)` on a fresh campaign. -/
def c1W2 : Campaign := (recommend envW Campaign.initial 1).1

/-- The campaign left by a subsequent successful `add_results`. -/
def c2W2 : Campaign := (add_results envW c1W2 dataGood).1

/-- The table returned by `recommend(1)` on a fresh campaign under `envW`. -/
def dfW5 : DataFrame := (recommend_compute envW Campaign.initial 1).2

/-- A `_fit` attribute matching the base contract. -/
def fiOk : MethodInfo :=
  { callable := true, co_varnames := ["self", "searchspace", "train_x", "train_y"], co_argcount := 4 }

/-- A `_posterior` attribute matching the base contract. -/
def poOk : MethodInfo :=
  { callable := true, co_varnames := ["self", "candidates"], co_argcount := 2 }

/-- A `_fit` attribute with differently named arguments. -/
def fiBad : MethodInfo :=
  { callable := true, co_varnames := ["self", "sspace", "x", "y"], co_argcount := 4 }

/-- A candidate class matching the base contract exactly. -/
def mOk : ModelCls := { fit_attr := some fiOk, posterior_attr := some poOk }

/-- A candidate class lacking a `_posterior` attribute. -/
def mNoPost : ModelCls := { fit_attr := some fiOk, posterior_attr := none }

/-- A candidate class whose `_fit` argument names differ from the contract. -/
def mBadFit : ModelCls := { fit_attr := some fiBad, posterior_attr := some poOk }

/-! ## Helper lemmas -/

theorem getAssoc_setAssoc_self (cols : List (String × List Cell)) (m : String) (v : List Cell) :
    getAssoc (setAssoc cols m v) m = some v := by
  induction cols with
  | nil => simp [setAssoc, getAssoc]
  | cons hd tl ih =>
    obtain ⟨n, col⟩ := hd
    by_cases h : n = m
    · simp [setAssoc, getAssoc, h]
    · simp [setAssoc, getAssoc, h, ih]

theorem getAssoc_setAssoc_ne (cols : List (String × List Cell)) (m k : String) (v : List Cell)
    (h : k ≠ m) : getAssoc (setAssoc cols m v) k = getAssoc cols k := by
  induction cols with
  | nil => simp [setAssoc, getAssoc, Ne.symm h]
  | cons hd tl ih =>
    obtain ⟨n, col⟩ := hd
    by_cases hn : n = m
    · subst hn
      simp [setAssoc, getAssoc, Ne.symm h]
    · simp only [setAssoc, if_neg hn, getAssoc]
      by_cases hk : n = k
      · simp [hk]
      · simp [hk, ih]

theorem getAssoc_mapAssoc_self (f : List Cell → List Cell) (cols : List (String × List Cell))
    (m : String) : getAssoc (mapAssoc f cols m) m = (getAssoc cols m).map f := by
  induction cols with
  | nil => simp [mapAssoc, getAssoc]
  | cons hd tl ih =>
    obtain ⟨n, col⟩ := hd
    by_cases h : n = m
    · simp [mapAssoc, getAssoc, h]
    · simp [mapAssoc, getAssoc, h, ih]

theorem getAssoc_mapAssoc_ne (f : List Cell → List Cell) (cols : List (String × List Cell))
    (m k : String) (h : k ≠ m) : getAssoc (mapAssoc f cols m) k = getAssoc cols k := by
  induction cols with
  | nil => simp [mapAssoc, getAssoc]
  | cons hd tl ih =>
    obtain ⟨n, col⟩ := hd
    by_cases hn : n = m
    · subst hn
      simp [mapAssoc, getAssoc, Ne.symm h]
    · simp only [mapAssoc, if_neg hn, getAssoc]
      by_cases hk : n = k
      · simp [hk]
      · simp [hk, ih]

theorem mapAssoc_names (f : List Cell → List Cell) (cols : List (String × List Cell))
    (m : String) : (mapAssoc f cols m).map Prod.fst = cols.map Prod.fst := by
  induction cols with
  | nil => simp [mapAssoc]
  | cons hd tl ih =>
    obtain ⟨n, col⟩ := hd
    by_cases h : n = m
    · simp [mapAssoc, h]
    · simp [mapAssoc, h, ih]

theorem nrows_setColConst (df : DataFrame) (m : String) (v : Cell) :
    (df.setColConst m v).nrows = df.nrows := rfl

theorem nrows_fillnaCol (df : DataFrame) (m : String) (v : Cell) :
    (df.fillnaCol m v).nrows = df.nrows := rfl

theorem getCol_setColConst_self (df : DataFrame) (m : String) (v : Cell) :
    (df.setColConst m v).getCol m = List.replicate df.nrows v := by
  simp [DataFrame.setColConst, DataFrame.getCol, getAssoc_setAssoc_self]

theorem getCol_setColConst_ne (df : DataFrame) (m k : String) (v : Cell) (h : k ≠ m) :
    (df.setColConst m v).getCol k = df.getCol k := by
  simp [DataFrame.setColConst, DataFrame.getCol, getAssoc_setAssoc_ne _ _ _ _ h]

theorem colNames_fillnaCol (df : DataFrame) (m : String) (v : Cell) :
    (df.fillnaCol m v).colNames = df.colNames := by
  simp [DataFrame.fillnaCol, DataFrame.colNames, mapAssoc_names]

theorem getCol_fillnaCol_self (df : DataFrame) (m : String) (v : Cell) :
    (df.fillnaCol m v).getCol m = (df.getCol m).map (fun x => if x = Cell.na then v else x) := by
  simp only [DataFrame.fillnaCol, DataFrame.getCol, getAssoc_mapAssoc_self]
  cases getAssoc df.cols m <;> simp

theorem getCol_fillnaCol_ne (df : DataFrame) (m k : String) (v : Cell) (h : k ≠ m) :
    (df.fillnaCol m v).getCol k = df.getCol k := by
  simp [DataFrame.fillnaCol, DataFrame.getCol, getAssoc_mapAssoc_ne _ _ _ _ h]

theorem nrows_foldl_set (ts : List String) (df : DataFrame) (v : Cell) :
    (ts.foldl (fun r t => r.setColConst t v) df).nrows = df.nrows := by
  induction ts generalizing df with
  | nil => rfl
  | cons t rest ih =>
    rw [List.foldl_cons]
    exact (ih (df.setColConst t v)).trans rfl

theorem getCol_foldl_set_not_mem (ts : List String) (df : DataFrame) (v : Cell) (t : String)
    (ht : t ∉ ts) :
    (ts.foldl (fun r u => r.setColConst u v) df).getCol t = df.getCol t := by
  induction ts generalizing df with
  | nil => rfl
  | cons u rest ih =>
    rw [List.foldl_cons]
    have hne : t ≠ u := fun h => ht (h ▸ List.mem_cons_self u rest)
    have hrest : t ∉ rest := fun h => ht (List.mem_cons_of_mem u h)
    rw [ih (df.setColConst u v) hrest, getCol_setColConst_ne df u t v hne]

theorem getCol_foldl_set_mem (ts : List String) (df : DataFrame) (v : Cell) (t : String)
    (ht : t ∈ ts) :
    (ts.foldl (fun r u => r.setColConst u v) df).getCol t = List.replicate df.nrows v := by
  induction ts generalizing df with
  | nil => cases ht
  | cons u rest ih =>
    rw [List.foldl_cons]
    by_cases hr : t ∈ rest
    · rw [ih (df.setColConst u v) hr, nrows_setColConst]
    · have htu : t = u := by
        rcases List.mem_cons.mp ht with h | h
        · exact h
        · exact absurd h hr
      subst htu
      rw [getCol_foldl_set_not_mem rest (df.setColConst t v) v t hr,
        getCol_setColConst_self]

theorem fit_update_batches (c : Campaign) : (fit_update c).batches_done = c.batches_done := by
  unfold fit_update
  split <;> rfl

theorem fit_update_marks (c : Campaign) : (fit_update c).measured_marks = c.measured_marks := by
  unfold fit_update
  split <;> rfl

theorem fit_update_fits (c : Campaign) :
    (fit_update c).fits_done =
      if 0 < c.measurements_exp.nrows then c.fits_done + 1 else c.fits_done := by
  unfold fit_update
  split <;> rfl

theorem fit_update_meas (c : Campaign) :
    (fit_update c).measurements_exp =
      if 0 < c.measurements_exp.nrows
      then c.measurements_exp.fillnaCol "FitNr" (Cell.num (Int.ofNat (c.fits_done + 1)))
      else c.measurements_exp := by
  unfold fit_update
  split <;> rfl

theorem recommend_compute_fst_cache (env : Env) (c : Campaign) (bq : Int) :
    (recommend_compute env c bq).1.cached_recommendation = (recommend_compute env c bq).2 := rfl

theorem recommend_compute_snd (env : Env) (c : Campaign) (bq : Int) :
    (recommend_compute env c bq).2 =
      env.targets.foldl (fun r t => r.setColConst t placeholder)
        (env.strategyRecommend (measurements_parameters_comp env (fit_update c))
          (measurements_targets_comp env (fit_update c)) bq) := rfl

theorem recommend_compute_fst_meas (env : Env) (c : Campaign) (bq : Int) :
    (recommend_compute env c bq).1.measurements_exp = (fit_update c).measurements_exp := rfl

theorem recommend_compute_fst_fits (env : Env) (c : Campaign) (bq : Int) :
    (recommend_compute env c bq).1.fits_done = (fit_update c).fits_done := rfl

theorem recommend_compute_fst_batches (env : Env) (c : Campaign) (bq : Int) :
    (recommend_compute env c bq).1.batches_done = c.batches_done := fit_update_batches c

theorem recommend_miss (env : Env) (c : Campaign) (bq : Int) (h1 : ¬ bq < 1)
    (hc : ((c.cached_recommendation.nrows : Int)) ≠ bq) :
    recommend env c bq =
      ((recommend_compute env c bq).1, Except.ok ((recommend_compute env c bq).2)) := by
  simp [recommend, h1, hc]

theorem recommend_hit (env : Env) (c : Campaign) (bq : Int) (h1 : ¬ bq < 1)
    (hc : ((c.cached_recommendation.nrows : Int)) = bq) :
    recommend env c bq = (c, Except.ok c.cached_recommendation) := by
  simp [recommend, h1, hc]

theorem add_results_cache_empty (env : Env) (c : Campaign) (data : DataFrame) :
    (add_results env c data).1.cached_recommendation = DataFrame.empty := by
  unfold add_results
  cases targets_check data env.targets
  · cases params_check data env.parameters
    · rfl
    · rfl
  · rfl

/-! ## Claim theorems -/

/-- C9: `recommend` rejects every integer batch quantity below one with
a validation error naming the quantity and leaves the campaign state
unchanged; every batch quantity of at least one passes this validation
and the call returns a recommendation table. -/
theorem recommend_batch_quantity_validation (env : Env) (c : Campaign) (bq : Int) :
    (bq < 1 →
      recommend env c bq = (c, Except.error (BError.valueError (batch_quantity_msg bq)))) ∧
    (1 ≤ bq → ∃ df, (recommend env c bq).2 = Except.ok df) := by
  constructor
  · intro h
    simp [recommend, h]
  · intro h
    have h1 : ¬ bq < 1 := not_lt.mpr h
    by_cases hc : ((c.cached_recommendation.nrows : Int)) = bq
    · exact ⟨c.cached_recommendation, by rw [recommend_hit env c bq h1 hc]⟩
    · exact ⟨(recommend_compute env c bq).2, by rw [recommend_miss env c bq h1 hc]⟩

/-- Witness for C9 at batch quantities 0 and 2. -/
theorem recommend_batch_quantity_validation_witness :
    recommend envW Campaign.initial 0 =
      (Campaign.initial, Except.error (BError.valueError (batch_quantity_msg 0))) ∧
    (∃ df, (recommend envW Campaign.initial 2).2 = Except.ok df) :=
  ⟨(recommend_batch_quantity_validation envW Campaign.initial 0).1 (by decide),
   (recommend_batch_quantity_validation envW Campaign.initial 2).2 (by decide)⟩

/-- C2: a successful `add_results` leaves the recommendation cache
empty (it is cleared as the first action of the call), hence a following
`recommend(n)` with positive `n` cannot serve the table cached before
the measurements arrived and takes the recompute path. -/
theorem cache_invalidation_on_add (env : Env) (c c1 c2 : Campaign) (data : DataFrame) (n : Int)
    (h1 : 1 ≤ n) (hfirst : (recommend env c n).1 = c1)
    (hadd : add_results env c1 data = (c2, none)) :
    c2.cached_recommendation = DataFrame.empty ∧
    recommend env c2 n =
      ((recommend_compute env c2 n).1, Except.ok ((recommend_compute env c2 n).2)) := by
  have hc2 : c2.cached_recommendation = DataFrame.empty := by
    have h := add_results_cache_empty env c1 data
    rw [hadd] at h
    exact h
  refine ⟨hc2, ?_⟩
  have hne : ((c2.cached_recommendation.nrows : Int)) ≠ n := by
    rw [hc2]
    simp only [DataFrame.empty]
    omega
  exact recommend_miss env c2 n (not_lt.mpr h1) hne

/-- Witness for C2: fresh campaign, `recommend(1)`, a valid
measurement table, then the cache is empty and `recommend(1)`
recomputes. -/
theorem cache_invalidation_on_add_witness :
    c2W2.cached_recommendation = DataFrame.empty ∧
    recommend envW c2W2 1 =
      ((recommend_compute envW c2W2 1).1, Except.ok ((recommend_compute envW c2W2 1).2)) :=
  cache_invalidation_on_add envW Campaign.initial c1W2 c2W2 dataGood 1 (by decide) rfl rfl

/-- C10: a successful `recommend` call leaves `batches_done` unchanged
and modifies the measurement log only by filling previously unassigned
fit-number entries: the row count and column names are preserved, every
column other than FitNr is unchanged, and each FitNr entry is either
kept or backfilled from missing to the new fit-counter value. -/
theorem recommend_frame (env : Env) (c : Campaign) (bq : Int) (h1 : 1 ≤ bq)
    (hcol : 0 < c.measurements_exp.nrows → c.measurements_exp.hasCol "FitNr" = true) :
    (recommend env c bq).1.batches_done = c.batches_done ∧
    (recommend env c bq).1.measurements_exp.nrows = c.measurements_exp.nrows ∧
    (recommend env c bq).1.measurements_exp.colNames = c.measurements_exp.colNames ∧
    (∀ m, m ≠ "FitNr" →
      (recommend env c bq).1.measurements_exp.getCol m = c.measurements_exp.getCol m) ∧
    (∀ i, ((recommend env c bq).1.measurements_exp.getCol "FitNr").get? i =
            (c.measurements_exp.getCol "FitNr").get? i ∨
          ((c.measurements_exp.getCol "FitNr").get? i = some Cell.na ∧
           ((recommend env c bq).1.measurements_exp.getCol "FitNr").get? i =
             some (Cell.num (Int.ofNat (c.fits_done + 1))))) := by
  have h1' : ¬ bq < 1 := not_lt.mpr h1
  by_cases hc : ((c.cached_recommendation.nrows : Int)) = bq
  · rw [recommend_hit env c bq h1' hc]
    exact ⟨rfl, rfl, rfl, fun m _ => rfl, fun i => Or.inl rfl⟩
  · rw [recommend_miss env c bq h1' hc]
    simp only [recommend_compute_fst_meas, recommend_compute_fst_batches, fit_update_meas]
    by_cases hn : 0 < c.measurements_exp.nrows
    · rw [if_pos hn]
      refine ⟨trivial, nrows_fillnaCol _ _ _, colNames_fillnaCol _ _ _, ?_, ?_⟩
      · intro m hm
        exact getCol_fillnaCol_ne _ _ _ _ hm
      · intro i
        rw [getCol_fillnaCol_self, List.get?_map]
        cases hx : (c.measurements_exp.getCol "FitNr").get? i with
        | none => exact Or.inl rfl
        | some x =>
          by_cases hna : x = Cell.na
          · subst hna
            exact Or.inr ⟨rfl, by simp⟩
          · exact Or.inl (by simp [hna])
    · rw [if_neg hn]
      simp

/-- Witness for C10 on a campaign with a two-row log, one row of which
awaits its fit number. -/
theorem recommend_frame_witness :
    (recommend envW cW4 2).1.batches_done = cW4.batches_done ∧
    (recommend envW cW4 2).1.measurements_exp.nrows = cW4.measurements_exp.nrows ∧
    (recommend envW cW4 2).1.measurements_exp.colNames = cW4.measurements_exp.colNames ∧
    (∀ m, m ≠ "FitNr" →
      (recommend envW cW4 2).1.measurements_exp.getCol m = cW4.measurements_exp.getCol m) ∧
    (∀ i, ((recommend envW cW4 2).1.measurements_exp.getCol "FitNr").get? i =
            (cW4.measurements_exp.getCol "FitNr").get? i ∨
          ((cW4.measurements_exp.getCol "FitNr").get? i = some Cell.na ∧
           ((recommend envW cW4 2).1.measurements_exp.getCol "FitNr").get? i =
             some (Cell.num (Int.ofNat (cW4.fits_done + 1))))) :=
  recommend_frame envW cW4 2 (by decide) (fun _ => by decide)

/-- C4: a cache-missing `recommend` call on a campaign with at least
one measurement row increments the fit counter exactly once and sets
the fit number of every still-unassigned measurement row to the new
counter value, keeping already-assigned fit numbers; on an empty
measurement log neither the counter nor the log changes. -/
theorem recommend_fit_backfill (env : Env) (c : Campaign) (bq : Int) (h1 : 1 ≤ bq)
    (hmiss : ((c.cached_recommendation.nrows : Int)) ≠ bq)
    (hcol : 0 < c.measurements_exp.nrows → c.measurements_exp.hasCol "FitNr" = true) :
    (0 < c.measurements_exp.nrows →
      (recommend env c bq).1.fits_done = c.fits_done + 1 ∧
      (recommend env c bq).1.measurements_exp.getCol "FitNr" =
        (c.measurements_exp.getCol "FitNr").map
          (fun x => if x = Cell.na then Cell.num (Int.ofNat (c.fits_done + 1)) else x)) ∧
    (c.measurements_exp.nrows = 0 →
      (recommend env c bq).1.fits_done = c.fits_done ∧
      (recommend env c bq).1.measurements_exp = c.measurements_exp) := by
  rw [recommend_miss env c bq (not_lt.mpr h1) hmiss]
  constructor
  · intro hn
    simp only [recommend_compute_fst_fits, recommend_compute_fst_meas, fit_update_fits,
      fit_update_meas, if_pos hn]
    exact ⟨trivial, getCol_fillnaCol_self _ _ _⟩
  · intro hz
    have hn : ¬ 0 < c.measurements_exp.nrows := by omega
    simp only [recommend_compute_fst_fits, recommend_compute_fst_meas, fit_update_fits,
      fit_update_meas, if_neg hn]
    exact ⟨trivial, trivial⟩

/-- Witness for C4 on a two-row log with one unassigned fit number. -/
theorem recommend_fit_backfill_witness :
    (0 < cW4.measurements_exp.nrows →
      (recommend envW cW4 2).1.fits_done = cW4.fits_done + 1 ∧
      (recommend envW cW4 2).1.measurements_exp.getCol "FitNr" =
        (cW4.measurements_exp.getCol "FitNr").map
          (fun x => if x = Cell.na then Cell.num (Int.ofNat (cW4.fits_done + 1)) else x)) ∧
    (cW4.measurements_exp.nrows = 0 →
      (recommend envW cW4 2).1.fits_done = cW4.fits_done ∧
      (recommend envW cW4 2).1.measurements_exp = cW4.measurements_exp) :=
  recommend_fit_backfill envW cW4 2 (by decide) (by decide) (fun _ => by decide)

/-- C1: when the strategy returns tables of the requested size, calling
`recommend(n)` twice in a row returns the same table both times and the
second call serves the cache, changing no campaign state. -/
theorem recommend_idempotent (env : Env) (c : Campaign) (n : Int) (h1 : 1 ≤ n)
    (hs : ∀ px ty, ((env.strategyRecommend px ty n).nrows : Int) = n)
    (hcol : 0 < c.measurements_exp.nrows → c.measurements_exp.hasCol "FitNr" = true) :
    recommend env ((recommend env c n).1) n = recommend env c n ∧
    ((recommend env c n).1.cached_recommendation.nrows : Int) = n ∧
    (recommend env c n).2 = Except.ok ((recommend env c n).1.cached_recommendation) := by
  have h1' : ¬ n < 1 := not_lt.mpr h1
  by_cases hc : ((c.cached_recommendation.nrows : Int)) = n
  · have e1 : recommend env c n = (c, Except.ok c.cached_recommendation) :=
      recommend_hit env c n h1' hc
    refine ⟨?_, ?_, ?_⟩
    · rw [e1]
      exact e1
    · rw [e1]
      exact hc
    · rw [e1]
  · have e1 : recommend env c n =
        ((recommend_compute env c n).1, Except.ok ((recommend_compute env c n).2)) :=
      recommend_miss env c n h1' hc
    have hn : (((recommend_compute env c n).1.cached_recommendation.nrows : Int)) = n := by
      rw [recommend_compute_fst_cache, recommend_compute_snd, nrows_foldl_set]
      exact hs _ _
    have e2 : recommend env ((recommend_compute env c n).1) n =
        ((recommend_compute env c n).1,
          Except.ok ((recommend_compute env c n).1.cached_recommendation)) :=
      recommend_hit env _ n h1' hn
    refine ⟨?_, ?_, ?_⟩
    · have hfst : (recommend env c n).1 = (recommend_compute env c n).1 := by rw [e1]
      rw [hfst, e2, recommend_compute_fst_cache, e1]
    · rw [e1]
      exact hn
    · rw [e1, recommend_compute_fst_cache]

/-- Witness for C1 on a fresh campaign at batch quantity 2. -/
theorem recommend_idempotent_witness :
    recommend envW ((recommend envW Campaign.initial 2).1) 2 =
      recommend envW Campaign.initial 2 ∧
    ((recommend envW Campaign.initial 2).1.cached_recommendation.nrows : Int) = 2 ∧
    (recommend envW Campaign.initial 2).2 =
      Except.ok ((recommend envW Campaign.initial 2).1.cached_recommendation) :=
  recommend_idempotent envW Campaign.initial 2 (by decide)
    (fun _ _ => rfl) (fun h => absurd h (by decide))

/-- Extending the target list by clean targets on the left does not
change the outcome of the target-validation loop. -/
theorem targets_check_append_clean (data : DataFrame) (pre rest : List String)
    (hpre : ∀ u, u ∈ pre → target_clean data u = true) :
    targets_check data (pre ++ rest) = targets_check data rest := by
  induction pre with
  | nil => rfl
  | cons u pre ih =>
    have hu : target_clean data u = true := hpre u (List.mem_cons_self u pre)
    have hna : hasNA (data.getCol u) = false := by
      have := Bool.and_elim_left hu
      simpa using this
    have hnum : numericKind (data.getCol u) = true := Bool.and_elim_right hu
    have htail : ∀ v, v ∈ pre → target_clean data v = true :=
      fun v hv => hpre v (List.mem_cons_of_mem u hv)
    simp only [List.cons_append, targets_check, hna, hnum]
    simpa using ih htail

/-- C3: when a declared target column (the first offending one in
declaration order) contains a missing value, `add_results` raises a
validation error naming that target; when instead it is non-numeric, a
type error naming that target; in both cases the only state change at
the point of the raise is the cache invalidation. -/
theorem add_results_target_validation (env : Env) (c : Campaign) (data : DataFrame)
    (pre post : List String) (t : String)
    (hsplit : env.targets = pre ++ t :: post)
    (hpre : ∀ u, u ∈ pre → target_clean data u = true)
    (hbad : target_clean data t = false) :
    ∃ msg, add_results env c data =
        ({ c with cached_recommendation := DataFrame.empty },
          some (if hasNA (data.getCol t) then BError.valueError msg
                else BError.typeError msg)) ∧
      (∃ a b, msg = a ++ t ++ b) := by
  have hcheck : targets_check data env.targets = targets_check data (t :: post) := by
    rw [hsplit]
    exact targets_check_append_clean data pre (t :: post) hpre
  by_cases hna : hasNA (data.getCol t)
  · refine ⟨target_na_msg t, ?_, "The target \x27", "\x27 has missing values or NaNs in the provided dataframe. Missing target values are not supported.", rfl⟩
    have ht : targets_check data env.targets = some (BError.valueError (target_na_msg t)) := by
      rw [hcheck]
      simp [targets_check, hna]
    rw [if_pos hna]
    unfold add_results
    rw [ht]
  · have hnum : numericKind (data.getCol t) = false := by
      have hb := hbad
      unfold target_clean at hb
      rcases Bool.and_eq_false_iff.mp hb with h | h
      · exact absurd (by simpa using h) hna
      · exact h
    refine ⟨target_type_msg t, ?_, "The target \x27", "\x27 has non-numeric entries in the provided dataframe. Non-numeric target values are not supported.", rfl⟩
    have ht : targets_check data env.targets = some (BError.typeError (target_type_msg t)) := by
      rw [hcheck]
      simp [targets_check, hna, hnum]
    rw [if_neg hna]
    unfold add_results
    rw [ht]

/-- Witness for C3: a table whose target column holds a missing value. -/
theorem add_results_target_validation_witness :
    ∃ msg, add_results envW Campaign.initial dataBadNA =
        ({ Campaign.initial with cached_recommendation := DataFrame.empty },
          some (if hasNA (dataBadNA.getCol "Yield") then BError.valueError msg
                else BError.typeError msg)) ∧
      (∃ a b, msg = a ++ "Yield" ++ b) :=
  add_results_target_validation envW Campaign.initial dataBadNA [] [] "Yield" rfl
    (by simp) (by decide)

theorem recommend_compute_placeholder (env : Env) (c : Campaign) (bq : Int) :
    placeholderFilled env.targets (recommend_compute env c bq).2 := by
  intro t ht
  rw [recommend_compute_snd, nrows_foldl_set, getCol_foldl_set_mem _ _ _ _ ht]

theorem reachable_cacheOK (env : Env) (c : Campaign) (h : Reachable env c) :
    CacheOK env.targets c := by
  induction h with
  | start => exact Or.inl rfl
  | step_add c data hr ih =>
    left
    rw [add_results_cache_empty]
    rfl
  | step_rec c bq hr ih =>
    by_cases h1 : bq < 1
    · simpa [recommend, h1] using ih
    · by_cases hc : ((c.cached_recommendation.nrows : Int)) = bq
      · rw [recommend_hit env c bq h1 hc]
        exact ih
      · rw [recommend_miss env c bq h1 hc]
        right
        rw [recommend_compute_fst_cache]
        exact recommend_compute_placeholder env c bq

/-- C5: on any reachable campaign, every successful `recommend` call
returns a table whose declared target columns are uniformly filled
with the unfilled-value placeholder in every row, so no row mixes
placeholder and non-placeholder target entries. -/
theorem recommend_placeholder_filled (env : Env) (c : Campaign) (bq : Int) (df : DataFrame)
    (hr : Reachable env c) (h1 : 1 ≤ bq)
    (hok : (recommend env c bq).2 = Except.ok df) :
    placeholderFilled env.targets df := by
  have h1' : ¬ bq < 1 := not_lt.mpr h1
  by_cases hc : ((c.cached_recommendation.nrows : Int)) = bq
  · rw [recommend_hit env c bq h1' hc] at hok
    have hdf : c.cached_recommendation = df := by
      simpa using hok
    rcases reachable_cacheOK env c hr with hz | hph
    · rw [hz] at hc
      omega
    · rw [← hdf]
      exact hph
  · rw [recommend_miss env c bq h1' hc] at hok
    have hdf : (recommend_compute env c bq).2 = df := by
      simpa using hok
    rw [← hdf]
    exact recommend_compute_placeholder env c bq

/-- Witness for C5: the table served by `recommend(1)` on a fresh
campaign. -/
theorem recommend_placeholder_filled_witness :
    placeholderFilled envW.targets dfW5 :=
  recommend_placeholder_filled envW Campaign.initial 1 dfW5 Reachable.start (by decide) rfl

/-- C6: the custom-architecture registrar validates at registration
time: a candidate class lacking a posterior method is rejected with a
contract-violation error; a candidate whose fit argument names or
order differ from the base contract is rejected with the descriptive
message; and a candidate whose fit and posterior signatures match the
base contract exactly passes validation and registration produces the
wrapping adapter. -/
theorem register_custom_architecture_contract :
    (∀ m : ModelCls, m.posterior_attr = none →
      ∃ msg, register_custom_architecture m = Except.error msg) ∧
    (∀ (m : ModelCls) (fi po : MethodInfo),
      m.fit_attr = some fi → m.posterior_attr = some po →
      fi.callable = true → po.callable = true →
      fi.co_varnames.take fi.co_argcount ≠ surrogate_fit_varnames →
      register_custom_architecture m = Except.error fit_args_msg) ∧
    (∀ (m : ModelCls) (fi po : MethodInfo),
      m.fit_attr = some fi → m.posterior_attr = some po →
      fi.callable = true → po.callable = true →
      fi.co_varnames.take fi.co_argcount = surrogate_fit_varnames →
      po.co_varnames.take po.co_argcount = surrogate_posterior_varnames →
      register_custom_architecture m = Except.ok { model := m }) := by
  refine ⟨?_, ?_, ?_⟩
  · intro m hp
    refine ⟨must_exist_msg, ?_⟩
    cases hf : m.fit_attr with
    | none => simp [register_custom_architecture, _validate_custom_arch_cls, hf, hp]
    | some fi => simp [register_custom_architecture, _validate_custom_arch_cls, hf, hp]
  · intro m fi po hf hp hcf hcp hne
    simp [register_custom_architecture, _validate_custom_arch_cls, hf, hp, hcf, hcp, hne]
  · intro m fi po hf hp hcf hcp he1 he2
    simp [register_custom_architecture, _validate_custom_arch_cls, hf, hp, hcf, hcp, he1, he2]

/-- Witness for C6 on three concrete candidate classes. -/
theorem register_custom_architecture_contract_witness :
    (∃ msg, register_custom_architecture mNoPost = Except.error msg) ∧
    register_custom_architecture mBadFit = Except.error fit_args_msg ∧
    register_custom_architecture mOk = Except.ok { model := mOk } :=
  ⟨register_custom_architecture_contract.1 mNoPost rfl,
   register_custom_architecture_contract.2.1 mBadFit fiBad poOk rfl rfl rfl rfl (by decide),
   register_custom_architecture_contract.2.2 mOk fiOk poOk rfl rfl rfl rfl (by decide) (by decide)⟩

/-- C7 (code behavior at the failing input): the adapter defines
neither of the Python attribute hooks (its delegation method carries a
misspelled name), so accessing an attribute defined only on the
wrapped model yields an attribute error (none), although the written
delegation body would return the wrapped-model value. -/
theorem custom_arch_delegation_dead :
    adapter_attribute_access [("n_estimators", 100)] "n_estimators" = none ∧
    get_attribute_body [("n_estimators", 100)] "n_estimators" =
      some (PyVal.wrappedMember "n_estimators" 100) ∧
    ¬ getattribute_hook ∈ custom_architecture_attr_names ∧
    ¬ getattr_hook ∈ custom_architecture_attr_names := by
  decide

/-- C8 (amended): the precompiled-model compatibility validation
passes exactly when every search-space parameter is numerical
continuous, numerical discrete, task, non-decorrelated custom
discrete, or integer-encoded categorical; any other parameter makes
it fail fast with the descriptive but constant incompatibility type
error. -/
theorem onnx_validate_compatibility (ps : List Parameter) :
    (validate_compatibility ps = none ↔ ∀ p, p ∈ ps → onnx_compatible p = true) ∧
    ((∃ p, p ∈ ps ∧ onnx_compatible p = false) →
      validate_compatibility ps = some onnx_incompat_msg) := by
  have hiff : validate_compatibility ps = none ↔ ps.all onnx_compatible = true := by
    unfold validate_compatibility
    by_cases ha : ps.all onnx_compatible = true
    · simp [ha]
    · simp [ha]
  constructor
  · rw [hiff, List.all_eq_true]
  · rintro ⟨p, hp, hfalse⟩
    unfold validate_compatibility
    have hna : ¬ (ps.all onnx_compatible = true) := by
      intro ha
      have hcp := List.all_eq_true.mp ha p hp
      rw [hfalse] at hcp
      cases hcp
    simp [hna]

/-- Witness for C8 on a compatible and on an incompatible search
space. -/
theorem onnx_validate_compatibility_witness :
    (validate_compatibility [Parameter.numericalDiscrete "x"] = none ↔
      ∀ p, p ∈ [Parameter.numericalDiscrete "x"] → onnx_compatible p = true) ∧
    validate_compatibility [Parameter.categorical "Color" "OHE"] = some onnx_incompat_msg :=
  ⟨(onnx_validate_compatibility [Parameter.numericalDiscrete "x"]).1,
   (onnx_validate_compatibility [Parameter.categorical "Color" "OHE"]).2
     ⟨Parameter.categorical "Color" "OHE", by decide, by decide⟩⟩

set_option maxRecDepth 4096 in
/-- C8 counterexample to the claim as stated: on a one-hot-encoded
categorical parameter the validation fails, but the raised message is
a constant string that names neither the offending parameter kind nor
the parameter. -/
theorem onnx_naming_counterexample :
    validate_compatibility [Parameter.categorical "Color" "OHE"] = some onnx_incompat_msg ∧
    containsSub "CategoricalParameter".toList onnx_incompat_msg.toList = false ∧
    containsSub "OHE".toList onnx_incompat_msg.toList = false ∧
    containsSub "Color".toList onnx_incompat_msg.toList = false := by
  decide

end BayBESpec
